import Mathlib

/-!
Shallow embedding of the bouncing-sphere extension
(`src/exts/b.s.p/b/s/p/extension.py`).

The physics core is the loop body of `run_simulation`:

    self._velocity += self._gravity * self._time_step
    self._height += self._velocity * self._time_step
    if self._height <= 0:
        self._height = -self._height * self._elasticity
        self._velocity = -self._velocity * self._elasticity

Python floats are modelled by `ℚ` (exact arithmetic).  The extension
object (`BouncingSphereExtension`) is modelled by the `ExtObj` structure;
Python attribute assignment is modelled with `Option (Option Unit)`
(outer `none` = the attribute was never assigned, so reading it raises
`AttributeError`; inner value = the attribute holds `None` or a scene
node).  The cooperative asyncio loop is modelled as a set of live task
ids; a scheduler event `tick t` gives task `t` one loop iteration.
-/

/-- The scalar simulation state of the integrator (the spec calls it
`BounceState`): height, velocity, gravity, elasticity.  The time step
is passed to `step` separately, matching the spec contract
`step(state, timeStep)`. -/
structure BounceState where
  height : ℚ
  velocity : ℚ
  gravity : ℚ
  elasticity : ℚ
deriving Repr, DecidableEq

/-- One invocation of the physics update, transcribed from the loop body of
`run_simulation` (extension.py lines 145-150): velocity is updated first,
then height using the updated velocity, then the reflection branch fires
exactly when the updated height is `≤ 0`. -/
def step (s : BounceState) (timeStep : ℚ) : BounceState :=
  let v := s.velocity + s.gravity * timeStep
  let h := s.height + v * timeStep
  if h ≤ 0 then
    { s with height := -h * s.elasticity, velocity := -v * s.elasticity }
  else
    { s with height := h, velocity := v }

/-- Errors observable in the embedding: a Python `AttributeError`, raised
when an attribute that was never assigned is read. -/
inductive SimErr
  | attributeError
deriving Repr, DecidableEq

/-- The `BouncingSphereExtension` object.  `sphere` and `plane` model the
Python attributes `_sphere` and `_plane`: the outer `Option` is attribute
presence (reading `none` raises `AttributeError`), the inner `Option Unit`
is the attribute value (`None` or a scene node).  `tasks` is the list of
live asyncio driver tasks, `timer` the task id stored in `_timer`,
`nextTask` a fresh id supply. -/
structure ExtObj where
  running : Bool
  height : ℚ
  velocity : ℚ
  gravity : ℚ
  time_step : ℚ
  elasticity : ℚ
  timer : Option ℕ
  sphere : Option (Option Unit)
  plane : Option (Option Unit)
  tasks : List ℕ
  nextTask : ℕ
deriving Repr, DecidableEq

/-- `on_startup` (extension.py lines 11-23): initialises the scalar fields,
sets `_timer = None` and `_sphere = None`.  It never assigns `_plane`,
which is therefore absent (`none` at the outer level). -/
def on_startup : ExtObj :=
  { running := false
    height := 20
    velocity := 0
    gravity := -981/100
    time_step := 2/125
    elasticity := 7/10
    timer := none
    sphere := some none
    plane := none
    tasks := []
    nextTask := 0 }

/-- Reading a Python attribute: raises `AttributeError` when the attribute
was never assigned. -/
def readAttr (a : Option (Option Unit)) : Except SimErr (Option Unit) :=
  match a with
  | none => .error .attributeError
  | some v => .ok v

/-- `create_sphere`: reads `self._sphere` (removing any existing node),
then defines the sphere node and assigns `_sphere`. -/
def create_sphere (e : ExtObj) : Except SimErr ExtObj := do
  let _ ← readAttr e.sphere
  .ok { e with sphere := some (some ()) }

/-- `create_ground_plane`: defines the plane node and assigns `_plane`
(it does not read `_plane` first). -/
def create_ground_plane (e : ExtObj) : ExtObj :=
  { e with plane := some (some ()) }

/-- `start_simulation` (extension.py lines 106-112): creates the sphere and
the ground plane unconditionally, then, only if the running flag is off,
sets it and schedules a new `run_simulation` task, storing it in
`_timer`. -/
def start_simulation (e : ExtObj) : Except SimErr ExtObj := do
  let e1 ← create_sphere e
  let e2 := create_ground_plane e1
  if e2.running then
    .ok e2
  else
    .ok { e2 with running := true
                  timer := some e2.nextTask
                  tasks := e2.tasks ++ [e2.nextTask]
                  nextTask := e2.nextTask + 1 }

/-- `stop_simulation`: clears the running flag, nothing else. -/
def stop_simulation (e : ExtObj) : ExtObj :=
  { e with running := false }

/-- `reset_simulation` (extension.py lines 117-133): clears the running
flag, cancels the `_timer` task if any, removes the sphere if `_sphere`
is a node, reads `_plane` (raising `AttributeError` when it was never
assigned) and removes the plane if it is a node, then restores height 20
and velocity 0. -/
def reset_simulation (e : ExtObj) : Except SimErr ExtObj := do
  let e1 := { e with running := false }
  let e2 :=
    match e1.timer with
    | some t => { e1 with tasks := e1.tasks.erase t, timer := none }
    | none => e1
  let sv ← readAttr e2.sphere
  let e3 :=
    match sv with
    | some _ => { e2 with sphere := some none }
    | none => e2
  let pv ← readAttr e3.plane
  let e4 :=
    match pv with
    | some _ => { e3 with plane := some none }
    | none => e3
  .ok { e4 with height := 20, velocity := 0 }

/-- `change_sphere_color`: reads `self._sphere`; when it is a node it
rebinds a material (scene-collaborator effect, not modelled), otherwise
it skips. -/
def change_sphere_color (e : ExtObj) : Except SimErr ExtObj := do
  let _ ← readAttr e.sphere
  .ok e

/-- `change_ground_color` (extension.py lines 84-103): reads `self._plane`
(raising `AttributeError` when it was never assigned); when it is a node
it rebinds a material, otherwise it skips. -/
def change_ground_color (e : ExtObj) : Except SimErr ExtObj := do
  let _ ← readAttr e.plane
  .ok e

/-- The physics lines of the `run_simulation` loop body acting on the
extension object, transcribed mutation by mutation. -/
def tick_physics (e : ExtObj) : ExtObj :=
  let e1 := { e with velocity := e.velocity + e.gravity * e.time_step }
  let e2 := { e1 with height := e1.height + e1.velocity * e1.time_step }
  if e2.height ≤ 0 then
    { e2 with height := -e2.height * e2.elasticity
              velocity := -e2.velocity * e2.elasticity }
  else e2

/-- One scheduler turn for driver task `t`: a live task checks the running
flag; when it is set the task performs one physics update and stays live,
otherwise the `while` loop exits and the task finishes (it leaves the live
set).  A `t` that is not a live task is ignored. -/
def run_tick (t : ℕ) (e : ExtObj) : ExtObj :=
  if t ∈ e.tasks then
    if e.running then tick_physics e
    else { e with tasks := e.tasks.erase t }
  else e

/-- The driver operations of the UI panel plus the scheduler event. -/
inductive Op
  | start
  | stop
  | reset
  | recolorSphere
  | recolorGround
  | tick (t : ℕ)
deriving Repr, DecidableEq

/-- Dispatch one operation on the extension object. -/
def execOp : Op → ExtObj → Except SimErr ExtObj
  | .start, e => start_simulation e
  | .stop, e => .ok (stop_simulation e)
  | .reset, e => reset_simulation e
  | .recolorSphere, e => change_sphere_color e
  | .recolorGround, e => change_ground_color e
  | .tick t, e => .ok (run_tick t e)

/-- Run a sequence of operations, stopping at the first uncaught error. -/
def exec (ops : List Op) (e : ExtObj) : Except SimErr ExtObj :=
  match ops with
  | [] => .ok e
  | op :: rest => do exec rest (← execOp op e)

/-- The physics tick on the extension object agrees with `step` on the
projected scalar state. -/
lemma tick_physics_eq_step (e : ExtObj) :
    tick_physics e =
      { e with
        height := (step ⟨e.height, e.velocity, e.gravity, e.elasticity⟩ e.time_step).height
        velocity := (step ⟨e.height, e.velocity, e.gravity, e.elasticity⟩ e.time_step).velocity } := by
  simp only [tick_physics, step]
  by_cases h : e.height + (e.velocity + e.gravity * e.time_step) * e.time_step ≤ 0 <;>
    simp [h]

/-! ## Claim theorems -/

/-- C1: one invocation of `step` on a state (height, velocity, gravity,
elasticity) with quantum timeStep computes velocity2 = velocity +
gravity * timeStep, then height2 = height + velocity2 * timeStep, and,
exactly when height2 ≤ 0, replaces them by -height2 * elasticity and
-velocity2 * elasticity, leaving them unchanged otherwise; gravity and
elasticity pass through — for every input state and every timeStep. -/
theorem C1_step_semantics (h v g el timeStep : ℚ) :
    step ⟨h, v, g, el⟩ timeStep =
      if h + (v + g * timeStep) * timeStep ≤ 0 then
        ⟨-(h + (v + g * timeStep) * timeStep) * el, -(v + g * timeStep) * el, g, el⟩
      else
        ⟨h + (v + g * timeStep) * timeStep, v + g * timeStep, g, el⟩ := by
  simp only [step]

/-- C2 counterexample: at state height 1, velocity -1, gravity 0,
elasticity 7/10, with timeStep 1, the post-update height is exactly 0,
but the resulting velocity is 7/10, not 0, and a further step raises the
height to 7/10, so the state is not a sink. -/
theorem C2_exact_zero_counterexample :
    ((1 : ℚ) + ((-1) + 0 * 1) * 1 = 0) ∧
    (step ⟨1, -1, 0, 7/10⟩ 1).velocity ≠ 0 ∧
    (step (step ⟨1, -1, 0, 7/10⟩ 1) 1).height ≠ 0 := by
  refine ⟨by norm_num, ?_, ?_⟩ <;> simp [step] <;> norm_num

/-- C2 amended: if the post-update height is exactly 0 the reflection
branch still fires and produces height 0 and velocity
-(velocity + gravity * timeStep) * elasticity (zero only when the updated
velocity or the elasticity is zero); the result is a sink state when
elasticity = 0 and gravity ≤ 0. -/
theorem C2_exact_zero_amended (s : BounceState) (dt : ℚ)
    (h0 : s.height + (s.velocity + s.gravity * dt) * dt = 0) :
    (step s dt).height = 0 ∧
    (step s dt).velocity = -(s.velocity + s.gravity * dt) * s.elasticity ∧
    (s.elasticity = 0 → s.gravity ≤ 0 →
      ∀ dt2 : ℚ, step (step s dt) dt2 = step s dt) := by
  have hle : s.height + (s.velocity + s.gravity * dt) * dt ≤ 0 := le_of_eq h0
  refine ⟨?_, ?_, ?_⟩
  · simp [step, hle, h0]
  · simp [step, hle]
  · intro he hg dt2
    have hstep : step s dt = ⟨0, 0, s.gravity, 0⟩ := by
      simp [step, hle, h0, he]
    rw [hstep]
    have h2 : (0 : ℚ) + (0 + s.gravity * dt2) * dt2 ≤ 0 := by
      nlinarith [mul_self_nonneg dt2]
    simp only [step]
    rw [if_pos h2]
    simp

/-- C2 amended witness: at the state of the counterexample with
elasticity 0 instead of 7/10, the step lands on height 0 with velocity
-(-1) * 0 = 0 and the result is a fixed point. -/
theorem C2_exact_zero_amended_witness :
    (step ⟨1, -1, 0, 0⟩ 1).height = 0 ∧
    (step ⟨1, -1, 0, 0⟩ 1).velocity = -((-1) + 0 * 1) * 0 ∧
    ((0 : ℚ) = 0 → (0 : ℚ) ≤ 0 → ∀ dt2 : ℚ,
      step (step ⟨1, -1, 0, 0⟩ 1) dt2 = step ⟨1, -1, 0, 0⟩ 1) := by
  have h := C2_exact_zero_amended ⟨1, -1, 0, 0⟩ 1 (by norm_num)
  exact ⟨h.1, h.2.1, fun _ _ => h.2.2 rfl (le_refl 0)⟩

/-- C3 counterexample: with timeStep -1 (non-positive), the step
computation is still performed in full: from height 20, velocity 0,
gravity -981/100, elasticity 7/10 the code returns the Euler-updated
state (height 1019/100, velocity 981/100) rather than signaling an
InvalidArgument error, so the computation is not restricted to positive
time steps. -/
theorem C3_timestep_counterexample :
    ((-1 : ℚ) ≤ 0) ∧
    step ⟨20, 0, -981/100, 7/10⟩ (-1) = ⟨1019/100, 981/100, -981/100, 7/10⟩ ∧
    step ⟨20, 0, -981/100, 7/10⟩ (-1) ≠ ⟨20, 0, -981/100, 7/10⟩ := by
  refine ⟨by norm_num, ?_, ?_⟩ <;> simp [step] <;> norm_num

/-- C3 amended: the code performs no validation of the time step: `step`
performs the full semi-implicit Euler update for every timeStep,
including zero and negative values, and no error is signaled; the driver
only ever invokes the update with the fixed positive time step 0.016
stored at startup. -/
theorem C3_no_validation_amended (s : BounceState) (dt : ℚ) (hdt : dt ≤ 0) :
    step s dt =
      (if s.height + (s.velocity + s.gravity * dt) * dt ≤ 0 then
        (⟨-(s.height + (s.velocity + s.gravity * dt) * dt) * s.elasticity,
          -(s.velocity + s.gravity * dt) * s.elasticity,
          s.gravity, s.elasticity⟩ : BounceState)
      else
        ⟨s.height + (s.velocity + s.gravity * dt) * dt,
         s.velocity + s.gravity * dt, s.gravity, s.elasticity⟩) ∧
    0 < on_startup.time_step := by
  exact ⟨by simp only [step], by norm_num [on_startup]⟩

/-- C3 amended witness: instantiation at timeStep 0. -/
theorem C3_no_validation_amended_witness :
    (step ⟨20, 0, -981/100, 7/10⟩ 0 =
      (if (20 : ℚ) + (0 + (-981/100) * 0) * 0 ≤ 0 then
        (⟨-((20 : ℚ) + (0 + (-981/100) * 0) * 0) * (7/10),
          -((0 : ℚ) + (-981/100) * 0) * (7/10), -981/100, 7/10⟩ : BounceState)
      else
        ⟨(20 : ℚ) + (0 + (-981/100) * 0) * 0,
         (0 : ℚ) + (-981/100) * 0, -981/100, 7/10⟩) ∧
      0 < on_startup.time_step) :=
  C3_no_validation_amended ⟨20, 0, -981/100, 7/10⟩ 0 (le_refl 0)

/-- C4: for every step whose reflection branch fires (post-update height
≤ 0) with elasticity in [0,1], the speed magnitude after the bounce is at
most the speed magnitude before the bounce. -/
theorem C4_energy_nonincrease (s : BounceState) (dt : ℚ)
    (he0 : 0 ≤ s.elasticity) (he1 : s.elasticity ≤ 1)
    (hb : s.height + (s.velocity + s.gravity * dt) * dt ≤ 0) :
    |(step s dt).velocity| ≤ |s.velocity + s.gravity * dt| := by
  simp only [step]
  rw [if_pos hb]
  simp only [abs_mul, abs_neg]
  calc |s.velocity + s.gravity * dt| * |s.elasticity|
      ≤ |s.velocity + s.gravity * dt| * 1 := by
        apply mul_le_mul_of_nonneg_left _ (abs_nonneg _)
        rwa [abs_of_nonneg he0]
    _ = |s.velocity + s.gravity * dt| := mul_one _

/-- C4 witness: a bounce at height 0 with downward velocity -1, gravity 0,
elasticity 1/2 and timeStep 1. -/
theorem C4_energy_nonincrease_witness :
    (0 : ℚ) ≤ 1/2 ∧ (1/2 : ℚ) ≤ 1 ∧
    ((0 : ℚ) + ((-1) + 0 * 1) * 1 ≤ 0) ∧
    |(step ⟨0, -1, 0, 1/2⟩ 1).velocity| ≤ |(-1 : ℚ) + 0 * 1| :=
  ⟨by norm_num, by norm_num, by norm_num,
    C4_energy_nonincrease ⟨0, -1, 0, 1/2⟩ 1 (by norm_num) (by norm_num) (by norm_num)⟩

/-- C5 counterexample: with elasticity 0 but positive gravity 1, from
height 0, velocity -1, timeStep 1 the reflection branch fires and leaves
(0, 0), yet the very next step raises the height to 1, so height does not
remain 0 for all subsequent steps for every initial state. -/
theorem C5_positive_gravity_counterexample :
    ((⟨0, -1, 1, 0⟩ : BounceState).elasticity = 0) ∧ ((0 : ℚ) < 1) ∧
    ((0 : ℚ) + ((-1) + 1 * 1) * 1 ≤ 0) ∧
    step ⟨0, -1, 1, 0⟩ 1 = ⟨0, 0, 1, 0⟩ ∧
    (step (step ⟨0, -1, 1, 0⟩ 1) 1).height ≠ 0 := by
  refine ⟨rfl, by norm_num, by norm_num, ?_, ?_⟩ <;> simp [step] <;> norm_num

/-- C5 amended: with elasticity 0 and non-positive gravity, any step whose
reflection branch fires lands exactly on height 0 and velocity 0, and from
that state every further sequence of steps with positive time steps leaves
height and velocity at 0. -/
theorem C5_inelastic_stop_amended :
    (∀ (s : BounceState) (dt : ℚ), s.elasticity = 0 →
      s.height + (s.velocity + s.gravity * dt) * dt ≤ 0 →
      step s dt = ⟨0, 0, s.gravity, 0⟩) ∧
    (∀ g : ℚ, g ≤ 0 → ∀ l : List ℚ, (∀ dt ∈ l, 0 < dt) →
      l.foldl step ⟨0, 0, g, 0⟩ = ⟨0, 0, g, 0⟩) := by
  constructor
  · intro s dt he hb
    simp only [step]
    rw [if_pos hb]
    simp [he]
  · intro g hg l hl
    induction l with
    | nil => rfl
    | cons dt rest ih =>
        have hfix : step ⟨0, 0, g, 0⟩ dt = ⟨0, 0, g, 0⟩ := by
          have h2 : (0 : ℚ) + (0 + g * dt) * dt ≤ 0 := by
            nlinarith [mul_self_nonneg dt]
          simp only [step]
          rw [if_pos h2]
          simp
        simp only [List.foldl_cons, hfix]
        exact ih fun dt2 h2 => hl dt2 (List.mem_cons_of_mem dt h2)

/-- C5 amended witness: a fully inelastic contact at gravity -981/100
followed by two further positive steps stays at (0, 0). -/
theorem C5_inelastic_stop_amended_witness :
    step ⟨0, -1, -981/100, 0⟩ 1 = ⟨0, 0, -981/100, 0⟩ ∧
    List.foldl step ⟨0, 0, -981/100, 0⟩ [1, 2] = ⟨0, 0, -981/100, 0⟩ := by
  constructor
  · have h := C5_inelastic_stop_amended.1 ⟨0, -1, -981/100, 0⟩ 1 rfl (by norm_num)
    simpa using h
  · exact C5_inelastic_stop_amended.2 (-981/100) (by norm_num) [1, 2]
      (by intro dt h; simp at h; rcases h with h | h <;> norm_num [h])

/-- C6: for every state with non-negative height and non-negative
elasticity and every positive timeStep, the height after a completed step
is non-negative: a transiently negative updated height is corrected by
the reflection branch before the step returns. -/
theorem C6_height_nonneg (s : BounceState) (dt : ℚ)
    (hh : 0 ≤ s.height) (he : 0 ≤ s.elasticity) (hdt : 0 < dt) :
    0 ≤ (step s dt).height := by
  by_cases hb : s.height + (s.velocity + s.gravity * dt) * dt ≤ 0
  · simp only [step]
    rw [if_pos hb]
    exact mul_nonneg (neg_nonneg.2 hb) he
  · simp only [step]
    rw [if_neg hb]
    exact le_of_lt (lt_of_not_le hb)

/-- C6 witness: the startup parameters (height 20, elasticity 7/10) with
timeStep 0.016 yield a non-negative height. -/
theorem C6_height_nonneg_witness :
    (0 : ℚ) ≤ 20 ∧ (0 : ℚ) ≤ 7/10 ∧ (0 : ℚ) < 2/125 ∧
    0 ≤ (step ⟨20, 0, -981/100, 7/10⟩ (2/125)).height :=
  ⟨by norm_num, by norm_num, by norm_num,
    C6_height_nonneg ⟨20, 0, -981/100, 7/10⟩ (2/125) (by norm_num) (by norm_num) (by norm_num)⟩

/-- C7: `step` is deterministic: two invocations on identical inputs
(same height, velocity, gravity, elasticity and same timeStep) return
identical outputs.  Side-effect freedom is reflected by the embedding:
the physics lines read and write only the scalar state that `step`
returns. -/
theorem C7_deterministic (s1 s2 : BounceState) (dt1 dt2 : ℚ)
    (hs : s1 = s2) (hdt : dt1 = dt2) :
    step s1 dt1 = step s2 dt2 := by
  rw [hs, hdt]

/-- C7 witness: two runs on the startup parameters coincide. -/
theorem C7_deterministic_witness :
    step ⟨20, 0, -981/100, 7/10⟩ (2/125) = step ⟨20, 0, -981/100, 7/10⟩ (2/125) :=
  C7_deterministic ⟨20, 0, -981/100, 7/10⟩ ⟨20, 0, -981/100, 7/10⟩ (2/125) (2/125) rfl rfl

/-- C8: the claim (and spec section 7) requires every operation on an
absent scene node to be a no-op or explicit skip, never a crash.  The code
violates it: `on_startup` assigns `_sphere = None` but never assigns
`_plane`, so `reset_simulation` and `change_ground_color` invoked before
the first start read the absent attribute `_plane` and raise
`AttributeError`, while `change_sphere_color` (whose attribute was
initialised) skips cleanly. -/
theorem C8_reset_before_start_crashes :
    execOp Op.reset on_startup = Except.error SimErr.attributeError ∧
    execOp Op.recolorGround on_startup = Except.error SimErr.attributeError ∧
    execOp Op.recolorSphere on_startup = Except.ok on_startup :=
  ⟨rfl, rfl, rfl⟩

/-- C9 counterexample: after the history start, one scheduler tick, stop,
a second start begins a run whose state is height 7811519/390625 (not the
starting height 20) and velocity -981/6250 (not 0): `start_simulation`
does not reinitialise the scalar state. -/
theorem C9_start_after_stop_counterexample :
    (exec [Op.start, Op.tick 0, Op.stop, Op.start] on_startup).map
        (fun e => (e.height, e.velocity)) =
      Except.ok ((7811519/390625 : ℚ), (-981/6250 : ℚ)) ∧
    (7811519/390625 : ℚ) ≠ 20 ∧ (-981/6250 : ℚ) ≠ 0 := by
  refine ⟨?_, by norm_num, by norm_num⟩
  norm_num [exec, execOp, start_simulation, create_sphere, create_ground_plane,
    readAttr, stop_simulation, run_tick, tick_physics, on_startup,
    Bind.bind, Except.bind, Except.map]

/-- C9 amended: the simulation state holds the starting height 20 and zero
velocity at startup and immediately after any completed reset;
`start_simulation` itself never changes height or velocity, so a start
that follows a stop mid-run resumes from the previous values instead of
reinitialising them. -/
theorem C9_lifecycle_amended :
    (on_startup.height = 20 ∧ on_startup.velocity = 0) ∧
    (∀ e e2 : ExtObj, reset_simulation e = Except.ok e2 →
      e2.height = 20 ∧ e2.velocity = 0) ∧
    (∀ e e2 : ExtObj, start_simulation e = Except.ok e2 →
      e2.height = e.height ∧ e2.velocity = e.velocity) := by
  refine ⟨⟨rfl, rfl⟩, ?_, ?_⟩
  · intro e e2 h
    obtain ⟨run, hh, vv, g, ts, el, tim, sph, pl, tks, nid⟩ := e
    rcases tim with _ | t <;> rcases sph with _ | sv <;> rcases pl with _ | pv
    all_goals try rcases sv with _ | _
    all_goals try rcases pv with _ | _
    all_goals simp [reset_simulation, readAttr, Bind.bind, Except.bind] at h
    all_goals simp [← h]
  · intro e e2 h
    obtain ⟨run, hh, vv, g, ts, el, tim, sph, pl, tks, nid⟩ := e
    rcases sph with _ | sv
    · simp [start_simulation, create_sphere, readAttr, Bind.bind, Except.bind] at h
    · rcases run with _ | _ <;>
        simp [start_simulation, create_sphere, create_ground_plane, readAttr,
          Bind.bind, Except.bind] at h <;>
        simp [← h]

/-- C9 amended witness: resetting a state whose plane attribute is set
restores height 20 and velocity 0, and the start from startup leaves
height and velocity untouched. -/
theorem C9_lifecycle_amended_witness :
    (({ on_startup with plane := some none } : ExtObj).height = 20 ∧
     ({ on_startup with plane := some none } : ExtObj).velocity = 0) ∧
    (({ on_startup with sphere := some (some ()), plane := some (some ()), running := true, timer := some 0, tasks := [0], nextTask := 1 } : ExtObj).height = on_startup.height ∧
     ({ on_startup with sphere := some (some ()), plane := some (some ()), running := true, timer := some 0, tasks := [0], nextTask := 1 } : ExtObj).velocity = on_startup.velocity) :=
  ⟨C9_lifecycle_amended.2.1 { on_startup with plane := some (some ()) } _ rfl,
   C9_lifecycle_amended.2.2 on_startup _ rfl⟩

/-- C10 counterexample: the history start, stop, start (with the first
driver task never scheduled in between) leaves two live driver tasks with
the running flag set: the task spawned by the first start was neither
cancelled nor given a chance to observe the cleared flag, and the second
start spawns a fresh task, so both will mutate the state. -/
theorem C10_two_tasks_counterexample :
    (exec [Op.start, Op.stop, Op.start] on_startup).map
        (fun e => (e.tasks, e.running)) = Except.ok ([0, 1], true) ∧
    ([0, 1] : List ℕ).length = 2 :=
  ⟨rfl, rfl⟩

/-- C10 amended: invoking start while the running flag is set spawns
nothing: the live-task list, the stored timer task and the task counter
are unchanged (only the scene nodes are re-created).  The at-most-one-
active-task invariant nevertheless fails after a stop followed by a start
issued before the stopped task has been scheduled again. -/
theorem C10_start_guard_amended (e e2 : ExtObj) (hr : e.running = true)
    (h : start_simulation e = Except.ok e2) :
    e2.tasks = e.tasks ∧ e2.timer = e.timer ∧ e2.nextTask = e.nextTask ∧
    e2.running = true := by
  obtain ⟨run, hh, vv, g, ts, el, tim, sph, pl, tks, nid⟩ := e
  simp only [] at hr
  subst hr
  rcases sph with _ | sv
  · simp [start_simulation, create_sphere, readAttr, Bind.bind, Except.bind] at h
  · simp [start_simulation, create_sphere, create_ground_plane, readAttr,
      Bind.bind, Except.bind] at h
    simp [← h]

/-- C10 amended witness: start on an already-running state with both nodes
present returns the state with task list, timer and counter unchanged. -/
theorem C10_start_guard_amended_witness :
    ([0] : List ℕ) = [0] ∧ (some 0 : Option ℕ) = some 0 ∧ (1 : ℕ) = 1 ∧
    true = true :=
  C10_start_guard_amended
    { on_startup with running := true, sphere := some (some ()), plane := some (some ()), timer := some 0, tasks := [0], nextTask := 1 }
    { on_startup with running := true, sphere := some (some ()), plane := some (some ()), timer := some 0, tasks := [0], nextTask := 1 }
    rfl rfl
